import Mathlib

/-!
Verification of `dll::dynamic_library` (src/application/dynamic_library.hpp).

Shallow embedding. Raw addresses and platform handles are modelled as `Nat`,
with `0` playing the role of the null pointer, exactly as the C++ checks
`if (!symbol)` / `if (!handle_)`. The OS loader is an abstract deterministic
environment `Sys` (POSIX `dlopen`/`dlsym`/`dlerror` branch of the shim):
`dlopen` and `dlsym` are pure lookups, and the thread-local `dlerror`
message is threaded explicitly as an `Option String` state (`none` = no
pending error, as after `dlerror()` has been read or cleared).

Resolution through a null handle is modelled as returning null: the
repository's own test `testNullLibrary` (src/application/main.cpp) expects
`get` on an unloaded handle to throw, and `GetProcAddress(NULL, ...)` /
`dlsym` on a closed module fail for module-exported symbols.

The symbol cache `std::unordered_map<std::string, void*>` is modelled as an
association list; `cache_.emplace` does not overwrite an existing key, which
`cacheEmplace` reproduces. The mutex only serializes cache access and the
claims under study are sequential, so it has no observable effect here.
-/

namespace dll

/-- The OS loader environment: deterministic tables for `dlopen` results
(`libs`, `0` = open failure), `dlsym` results per raw handle and symbol name
(`syms`, `0` = symbol absent), the diagnostic texts the platform reports for
a failed open (`openErr`) resp. a failed lookup (`symErr`), and the
behaviour of the machine code found at an address when it is called with a
list of argument values (`callFn`). -/
structure Sys where
  libs : String → Nat
  syms : Nat → String → Nat
  openErr : String → String
  symErr : Nat → String → String
  callFn : Nat → List Nat → Nat

/-- The thread-local `dlerror` state: `some msg` when a failure message is
pending, `none` after it has been read or cleared. -/
abbrev ErrSt := Option String

/-- `detail::load_library` (POSIX `dlopen`): returns the handle, `0` on
failure; a failed open leaves its diagnostic in the `dlerror` state. -/
def load_library (sys : Sys) (path : String) (e : ErrSt) : Nat × ErrSt :=
  let h := sys.libs path
  if h = 0 then (0, some (sys.openErr path)) else (h, e)

/-- The address `dlsym` yields for `name` through handle `h`; `0` when the
handle is null or the symbol is absent. -/
def resolve_raw (sys : Sys) (h : Nat) (name : String) : Nat :=
  if h = 0 then 0 else sys.syms h name

/-- `detail::load_symbol`: first calls `dlerror()` to clear any stale
pending message, then `dlsym`; a failed lookup leaves its own diagnostic
pending, a successful one leaves the state cleared. -/
def load_symbol (sys : Sys) (h : Nat) (name : String) (_e : ErrSt) : Nat × ErrSt :=
  let a := resolve_raw sys h name
  if a = 0 then (0, some (sys.symErr h name)) else (a, none)

/-- `detail::get_last_error` (POSIX branch): reads and clears the pending
`dlerror` message, falling back to the literal `"Unknown error"`. -/
def get_last_error (e : ErrSt) : String × ErrSt :=
  match e with
  | some s => (s, none)
  | none => ("Unknown error", none)

/-- The two `std::runtime_error` shapes the class throws, kept structured:
the constructor arguments are exactly the data interpolated into the
`what()` message (see `DLError.what`). -/
inductive DLError where
  | loadError (path : String) (errText : String)
  | symbolError (name : String) (errText : String)
deriving DecidableEq, Repr

/-- The `what()` message of each thrown `std::runtime_error`. -/
def DLError.what : DLError → String
  | .loadError p t => "Failed to load library: " ++ p ++ " - " ++ t
  | .symbolError n t => "Failed to load symbol: " ++ n ++ " - " ++ t

/-- The symbol cache `std::unordered_map<std::string, void*>` as an
association list (name, address). -/
abbrev Cache := List (String × Nat)

/-- `cache_.find(name)`: the stored address, if the key is present. -/
def cacheFind : Cache → String → Option Nat
  | [], _ => none
  | (k, v) :: rest, name => if k = name then some v else cacheFind rest name

/-- `cache_.emplace(name, addr)`: inserts only when the key is absent; an
existing entry is never overwritten. -/
def cacheEmplace (c : Cache) (k : String) (v : Nat) : Cache :=
  match cacheFind c k with
  | some _ => c
  | none => (k, v) :: c

/-- The state of a `dll::dynamic_library` object: the owned platform handle
(`0` = empty/unloaded) and the symbol cache. -/
structure dynamic_library where
  handle_ : Nat
  cache_ : Cache
deriving DecidableEq, Repr

/-- `valid()`: true iff the platform handle is non-null. -/
def dynamic_library.valid (lib : dynamic_library) : Bool :=
  lib.handle_ != 0

/-- `get<F>(name)`: resolves via `detail::load_symbol`; on a null result
throws a `runtime_error` built from the symbol name and
`detail::get_last_error()`. Returns the symbol address otherwise. Never
mutates the library state. -/
def dynamic_library.get (lib : dynamic_library) (sys : Sys) (name : String)
    (e : ErrSt) : Except DLError Nat × ErrSt :=
  let r := load_symbol sys lib.handle_ name e
  if r.1 = 0 then
    let m := get_last_error r.2
    (.error (.symbolError name m.1), m.2)
  else (.ok r.1, r.2)

/-- `try_get<F>(name)`: same resolution as `get`, but the null address is
returned to the caller instead of being turned into an exception. -/
def dynamic_library.try_get (lib : dynamic_library) (sys : Sys) (name : String)
    (e : ErrSt) : Nat × ErrSt :=
  load_symbol sys lib.handle_ name e

/-- Everything `invoke` produces: the call result (or the propagated
exception), the library state after the call (the cache may have gained an
entry), the `dlerror` state, and — as instrumentation for the caching
claims — how many fresh resolutions (`get` calls) were performed. -/
structure InvokeOut where
  res : Except DLError Nat
  lib : dynamic_library
  err : ErrSt
  resolutions : Nat
deriving Repr

/-- The local `func_ptr symbol = nullptr; ... if found, symbol = cached`
prologue of `invoke`: the cached address for the name, or the null address
when the name is absent. -/
def cachedAddr (c : Cache) (name : String) : Nat :=
  match cacheFind c name with
  | some a => a
  | none => 0

/-- `invoke<F>(name, args...)`: looks the name up in the cache; a non-null
cached address is called directly. Otherwise resolves through `get`
(propagating its exception on failure), `emplace`s the resolved address into
the cache, and calls it. -/
def dynamic_library.invoke (lib : dynamic_library) (sys : Sys) (name : String)
    (args : List Nat) (e : ErrSt) : InvokeOut :=
  let symbol0 : Nat := cachedAddr lib.cache_ name
  if symbol0 ≠ 0 then
    { res := .ok (sys.callFn symbol0 args), lib := lib, err := e, resolutions := 0 }
  else
    match lib.get sys name e with
    | (.ok a, e2) =>
      { res := .ok (sys.callFn a args)
        lib := { lib with cache_ := cacheEmplace lib.cache_ name a }
        err := e2
        resolutions := 1 }
    | (.error er, e2) =>
      { res := .error er, lib := lib, err := e2, resolutions := 1 }

/-- `invoke_uncached<F>(name, args...)`: resolves fresh through `get` on
every call and never touches the cache. -/
def dynamic_library.invoke_uncached (lib : dynamic_library) (sys : Sys)
    (name : String) (args : List Nat) (e : ErrSt) : Except DLError Nat × ErrSt :=
  match lib.get sys name e with
  | (.ok a, e2) => (.ok (sys.callFn a args), e2)
  | (.error er, e2) => (.error er, e2)

/-- `load_handle(libPath)`: assigns `handle_ = detail::load_library(path)`,
then throws a `runtime_error` built from the path and
`detail::get_last_error()` when the handle is null. The returned triple is
(thrown exception if any, object state afterwards, `dlerror` state). -/
def dynamic_library.load_handle (lib : dynamic_library) (sys : Sys)
    (path : String) (e : ErrSt) : Option DLError × dynamic_library × ErrSt :=
  let r := load_library sys path e
  let lib2 : dynamic_library := { lib with handle_ := r.1 }
  if r.1 = 0 then
    let m := get_last_error r.2
    (some (.loadError path m.1), lib2, m.2)
  else (none, lib2, r.2)

/-- The constructor `dynamic_library(libPath)`: member-initializes
`handle_ = nullptr` (and an empty cache), then runs `load_handle`. -/
def construct (sys : Sys) (path : String) (e : ErrSt) :
    Option DLError × dynamic_library × ErrSt :=
  dynamic_library.load_handle { handle_ := 0, cache_ := [] } sys path e

/-- `unload_handle()`: calls `detail::unload_library` (which closes only a
non-null handle) and nulls `handle_`. The second component records the raw
handles passed to `dlclose`/`FreeLibrary`, for release-accounting. -/
def dynamic_library.unload_handle (lib : dynamic_library) :
    dynamic_library × List Nat :=
  if lib.handle_ ≠ 0 then ({ lib with handle_ := 0 }, [lib.handle_]) else (lib, [])

/-- `clear_cache()`: empties the symbol cache. -/
def dynamic_library.clear_cache (lib : dynamic_library) : dynamic_library :=
  { lib with cache_ := [] }

/-- `unload()`: `unload_handle()` then `clear_cache()`; never throws. -/
def dynamic_library.unload (lib : dynamic_library) : dynamic_library × List Nat :=
  let r := lib.unload_handle
  (r.1.clear_cache, r.2)

/-- `reload(libPath)`: `unload()` then `load_handle(libPath)`. Returns
(thrown exception if any, state afterwards, `dlerror` state, handles
released). -/
def dynamic_library.reload (lib : dynamic_library) (sys : Sys) (path : String)
    (e : ErrSt) : Option DLError × dynamic_library × ErrSt × List Nat :=
  let u := lib.unload
  let r := u.1.load_handle sys path e
  (r.1, r.2.1, r.2.2, u.2)

/-- The destructor `~dynamic_library()`: `unload_handle()`; only the
released-handle accounting is observable. -/
def dynamic_library.destruct (lib : dynamic_library) : List Nat :=
  lib.unload_handle.2

/-- The move constructor: steals `other`'s handle and cache and nulls
`other.handle_`; the moved-from `std::unordered_map` is left empty. Returns
(constructed object, source afterwards). -/
def moveConstruct (other : dynamic_library) : dynamic_library × dynamic_library :=
  ({ handle_ := other.handle_, cache_ := other.cache_ },
   { handle_ := 0, cache_ := [] })

/-- The move assignment `*this = std::move(rhs)` for distinct objects,
implemented move-and-swap as in the source: `tmp` move-constructs from
`rhs`, swaps with `*this`, and `tmp`'s destructor releases the old `*this`
resource. Returns (new `*this`, new `rhs`, handles released). -/
def moveAssign (dest rhs : dynamic_library) :
    dynamic_library × dynamic_library × List Nat :=
  let m := moveConstruct rhs
  (m.1, m.2, dest.destruct)

/-- Self move assignment `a = std::move(a)`: `tmp` move-constructs from `a`
(emptying `a`), the swap hands `tmp`'s contents — the original `a` — back,
and `tmp` destructs holding the emptied state. Returns (resulting object,
handles released). -/
def moveAssignSelf (a : dynamic_library) : dynamic_library × List Nat :=
  let m := moveConstruct a
  (m.1, m.2.destruct)

/-- Modelled from the spec: `has_symbol(name)` is called by
`testHasSymbol` in src/application/main.cpp but its definition is absent
from the copy of dynamic_library.hpp under src/. Per spec §4.2 it "probes
resolution without raising, true iff a non-null address is found"
(resolve-and-discard, i.e. a `try_get` compared against null). -/
def dynamic_library.has_symbol (lib : dynamic_library) (sys : Sys)
    (name : String) (e : ErrSt) : Bool × ErrSt :=
  let r := load_symbol sys lib.handle_ name e
  (r.1 != 0, r.2)

/-- The reachability invariant of the symbol cache: every entry is a
non-null address and agrees with what resolution through the current handle
yields. Established empty by the constructor and maintained by every
operation (`invoke` only caches fresh `get` results; `unload`/`reload`
clear; moves transfer handle and cache together). -/
def cache_ok (sys : Sys) (lib : dynamic_library) : Prop :=
  ∀ p ∈ lib.cache_, p.2 ≠ 0 ∧ resolve_raw sys lib.handle_ p.1 = p.2

instance (sys : Sys) (lib : dynamic_library) : Decidable (cache_ok sys lib) := by
  unfold cache_ok
  infer_instance

/-- A small concrete loader environment for witnesses: one module at path
`"libdyn.so"` opened as handle `7`, exporting one symbol `"intAdd"` at
address `42` whose code adds its first two arguments. -/
def sysW : Sys where
  libs := fun p => if p = "libdyn.so" then 7 else 0
  syms := fun h n => if h = 7 then (if n = "intAdd" then 42 else 0) else 0
  openErr := fun _ => "cannot open"
  symErr := fun _ _ => "undefined symbol"
  callFn := fun a args => if a = 42 then args.headD 0 + (args.drop 1).headD 0 else 0

/-- A freshly loaded handle on `sysW` (empty cache). -/
def libW : dynamic_library := { handle_ := 7, cache_ := [] }

/-- The same handle after `invoke` has cached `"intAdd"`. -/
def libWc : dynamic_library := { handle_ := 7, cache_ := [("intAdd", 42)] }

/-! ### Helper lemmas -/

/-- `get` fully characterized: its outcome is determined by the raw
resolution alone (the incoming `dlerror` state is cleared before `dlsym`
runs), and the `dlerror` state is always clean afterwards. -/
theorem get_eq (sys : Sys) (lib : dynamic_library) (name : String) (e : ErrSt) :
    lib.get sys name e =
      if resolve_raw sys lib.handle_ name = 0 then
        (.error (.symbolError name (sys.symErr lib.handle_ name)), none)
      else (.ok (resolve_raw sys lib.handle_ name), none) := by
  unfold dynamic_library.get load_symbol get_last_error
  by_cases h : resolve_raw sys lib.handle_ name = 0 <;> simp [h]

/-- `try_get` fully characterized. -/
theorem try_get_eq (sys : Sys) (lib : dynamic_library) (name : String)
    (e : ErrSt) :
    lib.try_get sys name e =
      (resolve_raw sys lib.handle_ name,
       if resolve_raw sys lib.handle_ name = 0 then
         some (sys.symErr lib.handle_ name)
       else none) := by
  unfold dynamic_library.try_get load_symbol
  by_cases h : resolve_raw sys lib.handle_ name = 0 <;> simp [h]

/-- A successful cache lookup comes from an entry of the list. -/
theorem cacheFind_mem {c : Cache} {n : String} {a : Nat}
    (h : cacheFind c n = some a) : (n, a) ∈ c := by
  induction c with
  | nil => simp [cacheFind] at h
  | cons p rest ih =>
    rw [show (p :: rest : Cache) = (p.1, p.2) :: rest from rfl, cacheFind] at h
    by_cases hk : p.1 = n
    · simp [hk] at h
      simp [← hk, ← h]
    · simp [hk] at h
      exact List.mem_cons_of_mem _ (ih h)

/-- `emplace` is a no-op when the key is already present. -/
theorem cacheEmplace_noop {c : Cache} {k : String} {a : Nat} (v : Nat)
    (h : cacheFind c k = some a) : cacheEmplace c k v = c := by
  unfold cacheEmplace
  rw [h]

/-- `emplace` never disturbs an existing entry (it inserts fresh keys at the
front and leaves present keys alone). -/
theorem cacheFind_emplace_of_found {c : Cache} {n : String} {a : Nat}
    (k : String) (v : Nat) (h : cacheFind c n = some a) :
    cacheFind (cacheEmplace c k v) n = some a := by
  unfold cacheEmplace
  cases hk : cacheFind c k with
  | some b => exact h
  | none =>
    rw [cacheFind]
    by_cases hkn : k = n
    · subst hkn
      rw [hk] at h
      exact absurd h (by simp)
    · simp [hkn, h]

/-- `emplace` of an absent key makes it found. -/
theorem cacheFind_emplace_self {c : Cache} {k : String} (v : Nat)
    (h : cacheFind c k = none) :
    cacheFind (cacheEmplace c k v) k = some v := by
  unfold cacheEmplace
  rw [h, cacheFind]
  simp

/-- After `unload()` the object state is exactly the empty handle with an
empty cache, whatever the previous state. -/
theorem unload_state (lib : dynamic_library) :
    (lib.unload).1 = { handle_ := 0, cache_ := [] } := by
  unfold dynamic_library.unload dynamic_library.unload_handle dynamic_library.clear_cache
  by_cases h : lib.handle_ = 0 <;> simp [h]

/-- Handles released by `unload()`: the held one, if any. -/
theorem unload_closed (lib : dynamic_library) :
    (lib.unload).2 = (if lib.handle_ = 0 then [] else [lib.handle_]) := by
  unfold dynamic_library.unload dynamic_library.unload_handle dynamic_library.clear_cache
  by_cases h : lib.handle_ = 0 <;> simp [h]

/-- A found key determines the cached-or-null address. -/
theorem cachedAddr_eq {c : Cache} {n : String} {a : Nat}
    (hf : cacheFind c n = some a) : cachedAddr c n = a := by
  unfold cachedAddr
  rw [hf]

/-- An absent key yields the null address. -/
theorem cachedAddr_of_none {c : Cache} {n : String}
    (hf : cacheFind c n = none) : cachedAddr c n = 0 := by
  unfold cachedAddr
  rw [hf]

/-- A non-null cached-or-null address comes from an actual cache entry. -/
theorem cacheFind_of_cachedAddr_ne {c : Cache} {n : String}
    (h : cachedAddr c n ≠ 0) : cacheFind c n = some (cachedAddr c n) := by
  unfold cachedAddr at *
  cases hf : cacheFind c n with
  | none => rw [hf] at h; simp at h
  | some b => rfl

/-- `invoke` on a cache hit: calls the cached address directly, performs no
resolution, and changes nothing. -/
theorem invoke_hit (sys : Sys) (lib : dynamic_library) (name : String)
    (args : List Nat) (e : ErrSt) (h0 : cachedAddr lib.cache_ name ≠ 0) :
    lib.invoke sys name args e =
      { res := .ok (sys.callFn (cachedAddr lib.cache_ name) args),
        lib := lib, err := e, resolutions := 0 } := by
  unfold dynamic_library.invoke
  simp [h0]

/-- `invoke` on a cache miss with a resolvable symbol: performs one
resolution, `emplace`s the address into the cache, and calls it. -/
theorem invoke_miss_ok (sys : Sys) (lib : dynamic_library) (name : String)
    (args : List Nat) (e : ErrSt) (h0 : cachedAddr lib.cache_ name = 0)
    (hr : resolve_raw sys lib.handle_ name ≠ 0) :
    lib.invoke sys name args e =
      { res := .ok (sys.callFn (resolve_raw sys lib.handle_ name) args),
        lib := { lib with
                 cache_ := cacheEmplace lib.cache_ name
                   (resolve_raw sys lib.handle_ name) },
        err := none, resolutions := 1 } := by
  unfold dynamic_library.invoke
  rw [get_eq]
  simp [h0, hr]

/-- `invoke` on a cache miss with an unresolvable symbol: performs one
(failing) resolution, propagates `get`'s exception, and changes nothing. -/
theorem invoke_miss_fail (sys : Sys) (lib : dynamic_library) (name : String)
    (args : List Nat) (e : ErrSt) (h0 : cachedAddr lib.cache_ name = 0)
    (hr : resolve_raw sys lib.handle_ name = 0) :
    lib.invoke sys name args e =
      { res := .error (.symbolError name (sys.symErr lib.handle_ name)),
        lib := lib, err := none, resolutions := 1 } := by
  unfold dynamic_library.invoke
  rw [get_eq]
  simp [h0, hr]

/-- Every entry of an `emplace` result is the inserted pair or an original
entry. -/
theorem mem_cacheEmplace {c : Cache} {k : String} {v : Nat} {p : String × Nat}
    (h : p ∈ cacheEmplace c k v) : p = (k, v) ∨ p ∈ c := by
  unfold cacheEmplace at h
  cases hk : cacheFind c k with
  | some b => rw [hk] at h; exact Or.inr h
  | none =>
    rw [hk] at h
    rcases List.mem_cons.mp h with h1 | h1
    · exact Or.inl h1
    · exact Or.inr h1

/-- `invoke` never disturbs an existing cache entry: whatever it does for
`n2` (cache hit, fresh resolution and `emplace`, or a propagated failure),
an address already cached for `n` stays cached unchanged. -/
theorem invoke_preserves_entry (sys : Sys) (lib : dynamic_library)
    (n2 : String) (args : List Nat) (e : ErrSt) {n : String} {a : Nat}
    (h : cacheFind lib.cache_ n = some a) :
    cacheFind ((lib.invoke sys n2 args e).lib.cache_) n = some a := by
  by_cases h0 : cachedAddr lib.cache_ n2 = 0
  · by_cases hr : resolve_raw sys lib.handle_ n2 = 0
    · rw [invoke_miss_fail sys lib n2 args e h0 hr]
      exact h
    · rw [invoke_miss_ok sys lib n2 args e h0 hr]
      exact cacheFind_emplace_of_found _ _ h
  · rw [invoke_hit sys lib n2 args e h0]
    exact h

/-! ### The claims -/

/-- Claim C3: for every handle and symbol name, `get` raises an error
(carrying the symbol name and the platform last-error text) if and only if
the underlying resolution returns null, in which case `try_get` returns the
null address; when resolution returns a non-null address, `get` and
`try_get` both return exactly that address. `try_get` never raises: by its
very shape it returns a plain address, with no error alternative. -/
theorem C3_get_try_get (sys : Sys) (lib : dynamic_library) (name : String)
    (e e' : ErrSt) :
    ((∃ msg, (lib.get sys name e).1 = .error (.symbolError name msg)) ↔
        resolve_raw sys lib.handle_ name = 0)
    ∧ (lib.get sys name e).1 =
        (if resolve_raw sys lib.handle_ name = 0 then
           .error (.symbolError name (sys.symErr lib.handle_ name))
         else .ok (resolve_raw sys lib.handle_ name))
    ∧ (lib.try_get sys name e').1 = resolve_raw sys lib.handle_ name := by
  rw [get_eq, try_get_eq]
  by_cases h : resolve_raw sys lib.handle_ name = 0 <;> simp [h]

/-- Claim C3, instantiated on the concrete environment `sysW`. -/
theorem C3_witness :
    (libW.try_get sysW "intAdd" none).1 = resolve_raw sysW libW.handle_ "intAdd"
    ∧ (libW.get sysW "intAdd" none).1 =
        (if resolve_raw sysW libW.handle_ "intAdd" = 0 then
           .error (.symbolError "intAdd" (sysW.symErr libW.handle_ "intAdd"))
         else .ok (resolve_raw sysW libW.handle_ "intAdd")) :=
  ⟨(C3_get_try_get sysW libW "intAdd" none none).2.2,
   (C3_get_try_get sysW libW "intAdd" none none).2.1⟩

/-- Claim C4: constructing a `dynamic_library` raises a `LoadError`
carrying the path and the platform last-error text exactly when the
platform open returns null, and then the handle field remains null (no
resource acquired, `valid()` false); when the open succeeds the handle
holds the opened module and `valid()` is true. The cache starts empty
either way. -/
theorem C4_construct (sys : Sys) (path : String) (e : ErrSt) :
    (if sys.libs path = 0 then
       (construct sys path e).1 = some (.loadError path (sys.openErr path))
       ∧ (construct sys path e).2.1.handle_ = 0
       ∧ (construct sys path e).2.1.valid = false
     else
       (construct sys path e).1 = none
       ∧ (construct sys path e).2.1.handle_ = sys.libs path
       ∧ (construct sys path e).2.1.valid = true)
    ∧ (construct sys path e).2.1.cache_ = [] := by
  unfold construct dynamic_library.load_handle load_library get_last_error
  by_cases h : sys.libs path = 0 <;> simp [h, dynamic_library.valid]

/-- Claim C5: `unload()` releases exactly the held platform handle (nothing
when already empty), clears the symbol cache, never fails (it has no error
outcome), and is idempotent: after one call `valid()` is false and the
cache is empty, and a second call changes nothing and releases nothing. -/
theorem C5_unload (lib : dynamic_library) :
    (lib.unload).1.valid = false
    ∧ (lib.unload).1.cache_ = []
    ∧ (lib.unload).2 = (if lib.handle_ = 0 then [] else [lib.handle_])
    ∧ (lib.unload).1.unload = ((lib.unload).1, []) := by
  refine ⟨?_, ?_, unload_closed lib, ?_⟩
  · rw [unload_state]; rfl
  · rw [unload_state]
  · rw [unload_state]; rfl

/-- Claim C6: after `unload()`, `valid()` is false and every subsequent
`get` or `invoke` raises a `SymbolError` (resolution through the null
handle yields null, so no symbol can be obtained); the failing `invoke`
leaves the unloaded state unchanged, so the property persists across any
number of subsequent calls. -/
theorem C6_unloaded_raises (sys : Sys) (lib : dynamic_library) (name : String)
    (args : List Nat) (e e' : ErrSt) :
    (lib.unload).1.valid = false
    ∧ ((lib.unload).1.get sys name e).1 =
        .error (.symbolError name (sys.symErr 0 name))
    ∧ ((lib.unload).1.invoke sys name args e').res =
        .error (.symbolError name (sys.symErr 0 name))
    ∧ ((lib.unload).1.invoke sys name args e').lib = (lib.unload).1 := by
  rw [unload_state]
  refine ⟨rfl, ?_, ?_, ?_⟩
  · rw [get_eq]
    simp [resolve_raw]
  · unfold dynamic_library.invoke
    rw [get_eq]
    simp [resolve_raw, cachedAddr, cacheFind]
  · unfold dynamic_library.invoke
    rw [get_eq]
    simp [resolve_raw, cachedAddr, cacheFind]

/-- Claim C7: `reload(path)` first releases the currently held module (if
any) and clears the cache, then loads `path` exactly as construction does:
the raised error (if any), the resulting object state, and the resulting
error state all coincide with `construct`'s, so a failed reload leaves the
handle empty with an empty cache and a successful one holds the new module
with an empty cache. -/
theorem C7_reload (sys : Sys) (lib : dynamic_library) (path : String)
    (e : ErrSt) :
    (lib.reload sys path e).1 = (construct sys path e).1
    ∧ (lib.reload sys path e).2.1 = (construct sys path e).2.1
    ∧ (lib.reload sys path e).2.2.1 = (construct sys path e).2.2
    ∧ (lib.reload sys path e).2.2.2 =
        (if lib.handle_ = 0 then [] else [lib.handle_])
    ∧ (lib.reload sys path e).2.1.cache_ = []
    ∧ (lib.reload sys path e).2.1.valid =
        (if sys.libs path = 0 then false else true) := by
  unfold dynamic_library.reload construct
  simp only [unload_state, unload_closed]
  unfold dynamic_library.load_handle load_library get_last_error
  by_cases h : sys.libs path = 0 <;> simp [h, dynamic_library.valid]

/-- Claim C8: a move leaves the source empty (`valid()` false, cache
empty) and hands the destination exactly the platform handle and cache the
source held; move assignment releases the destination's previously held
resource exactly once (and nothing else), and self move assignment keeps
the object intact and releases nothing. None of these operations has an
error outcome. -/
theorem C8_move (a dest rhs : dynamic_library) :
    (moveConstruct a).1 = a
    ∧ (moveConstruct a).2.valid = false
    ∧ (moveConstruct a).2.cache_ = []
    ∧ (moveAssign dest rhs).1 = rhs
    ∧ (moveAssign dest rhs).2.1.valid = false
    ∧ (moveAssign dest rhs).2.1.cache_ = []
    ∧ (moveAssign dest rhs).2.2 =
        (if dest.handle_ = 0 then [] else [dest.handle_])
    ∧ (moveAssignSelf a).1 = a
    ∧ (moveAssignSelf a).2 = [] := by
  unfold moveAssign moveAssignSelf dynamic_library.destruct
    dynamic_library.unload_handle moveConstruct
  by_cases h : dest.handle_ = 0 <;> simp [h, dynamic_library.valid]

/-- Claim C1: on a loaded handle whose cache satisfies the reachability
invariant `cache_ok`, `invoke` returns exactly what `invoke_uncached`
returns, which in turn is exactly `get` followed by a direct call through
the returned address — whether or not the name is already cached; in
particular, an absent and uncached symbol makes `invoke` propagate the very
SymbolError `get` raises. -/
theorem C1_invoke_refinement (sys : Sys) (lib : dynamic_library)
    (name : String) (args : List Nat) (e e' : ErrSt)
    (hv : lib.valid = true) (hc : cache_ok sys lib) :
    (lib.invoke sys name args e).res = (lib.invoke_uncached sys name args e').1
    ∧ (lib.invoke_uncached sys name args e').1 =
        (match (lib.get sys name e').1 with
         | .ok a => .ok (sys.callFn a args)
         | .error er => .error er) := by
  have hm : (lib.invoke_uncached sys name args e').1 =
      (match (lib.get sys name e').1 with
       | .ok a => .ok (sys.callFn a args)
       | .error er => .error er) := by
    unfold dynamic_library.invoke_uncached
    rcases hg : lib.get sys name e' with ⟨r, e2⟩
    cases r <;> simp [hg]
  refine ⟨?_, hm⟩
  rw [hm, get_eq]
  by_cases h0 : cachedAddr lib.cache_ name = 0
  · by_cases hr : resolve_raw sys lib.handle_ name = 0
    · rw [invoke_miss_fail sys lib name args e h0 hr]
      simp [hr]
    · rw [invoke_miss_ok sys lib name args e h0 hr]
      simp [hr]
  · obtain ⟨hb, hrb⟩ :=
      hc (name, cachedAddr lib.cache_ name)
        (cacheFind_mem (cacheFind_of_cachedAddr_ne h0))
    rw [invoke_hit sys lib name args e h0]
    simp only at hrb
    simp [hrb, h0]

/-- Claim C1, instantiated on `sysW` with `"intAdd"` already cached:
`invoke` agrees with `invoke_uncached`. -/
theorem C1_witness :
    (libWc.invoke sysW "intAdd" [2, 3] none).res =
      (libWc.invoke_uncached sysW "intAdd" [2, 3] none).1 :=
  (C1_invoke_refinement sysW libWc "intAdd" [2, 3] none none (by decide)
    (by decide)).1

/-- Claim C2: once `invoke` has resolved a name it stays cached with a
non-null address, an `invoke` of a cached name performs zero resolutions,
any other `invoke` preserves the entry, and `invoke` preserves the cache
invariant — so between the cache-clearing points (`unload`/`reload`, claim
C5/C7/C10) each name is resolved at most once. -/
theorem C2_single_resolution (sys : Sys) (lib : dynamic_library)
    (name n2 : String) (args args2 : List Nat) (e e2 : ErrSt) (a : Nat)
    (hc : cache_ok sys lib) :
    (∀ r, (lib.invoke sys name args e).res = .ok r →
      ∃ b, b ≠ 0 ∧
        cacheFind ((lib.invoke sys name args e).lib.cache_) name = some b)
    ∧ (cacheFind lib.cache_ name = some a →
        (lib.invoke sys name args e).resolutions = 0)
    ∧ (cacheFind lib.cache_ name = some a →
        cacheFind ((lib.invoke sys n2 args2 e2).lib.cache_) name = some a)
    ∧ cache_ok sys ((lib.invoke sys n2 args2 e2).lib) := by
  refine ⟨?_, ?_, fun h => invoke_preserves_entry sys lib n2 args2 e2 h, ?_⟩
  · intro r hok
    by_cases h0 : cachedAddr lib.cache_ name = 0
    · by_cases hr : resolve_raw sys lib.handle_ name = 0
      · rw [invoke_miss_fail sys lib name args e h0 hr] at hok
        exact absurd hok (by simp)
      · refine ⟨resolve_raw sys lib.handle_ name, hr, ?_⟩
        rw [invoke_miss_ok sys lib name args e h0 hr]
        cases hf : cacheFind lib.cache_ name with
        | none => exact cacheFind_emplace_self _ hf
        | some b =>
          obtain ⟨hb, _⟩ := hc (name, b) (cacheFind_mem hf)
          rw [cachedAddr_eq hf] at h0
          exact absurd h0 hb
    · refine ⟨cachedAddr lib.cache_ name, h0, ?_⟩
      rw [invoke_hit sys lib name args e h0]
      exact cacheFind_of_cachedAddr_ne h0
  · intro hf
    obtain ⟨ha, _⟩ := hc (name, a) (cacheFind_mem hf)
    have h0 : cachedAddr lib.cache_ name ≠ 0 := by
      rw [cachedAddr_eq hf]
      exact ha
    rw [invoke_hit sys lib name args e h0]
  · by_cases h0 : cachedAddr lib.cache_ n2 = 0
    · by_cases hr : resolve_raw sys lib.handle_ n2 = 0
      · rw [invoke_miss_fail sys lib n2 args2 e2 h0 hr]
        exact hc
      · rw [invoke_miss_ok sys lib n2 args2 e2 h0 hr]
        intro p hp
        rcases mem_cacheEmplace hp with hp1 | hp1
        · subst hp1
          exact ⟨hr, rfl⟩
        · exact hc p hp1
    · rw [invoke_hit sys lib n2 args2 e2 h0]
      exact hc

/-- Claim C2, instantiated: with `"intAdd"` already cached on `sysW`, a
further `invoke` of it performs no resolution. -/
theorem C2_witness :
    (libWc.invoke sysW "intAdd" [1, 2] none).resolutions = 0 :=
  (C2_single_resolution sysW libWc "intAdd" "intAdd" [1, 2] [1, 2] none none
    42 (by decide)).2.1 (by decide)

/-- Claim C9 (from the spec-modelled `has_symbol`, absent from the src copy
of the header): `has_symbol` is true exactly when resolution yields a
non-null address, has no failure outcome (it returns a plain Bool), and the
last-error state it leaves behind cannot change what a subsequent `get` or
`try_get` observes — each lookup clears the pending `dlerror` before
resolving, so their outcomes are independent of that state. -/
theorem C9_has_symbol (sys : Sys) (lib : dynamic_library) (name n2 : String)
    (e e' : ErrSt) :
    ((lib.has_symbol sys name e).1 = true ↔
        resolve_raw sys lib.handle_ name ≠ 0)
    ∧ (lib.get sys n2 ((lib.has_symbol sys name e).2)).1 =
        (lib.get sys n2 e').1
    ∧ (lib.try_get sys n2 ((lib.has_symbol sys name e).2)).1 =
        (lib.try_get sys n2 e').1 := by
  refine ⟨?_, ?_, ?_⟩
  · unfold dynamic_library.has_symbol load_symbol
    by_cases h : resolve_raw sys lib.handle_ name = 0 <;> simp [h]
  · rw [get_eq, get_eq]
  · rw [try_get_eq, try_get_eq]

/-- Claim C10: a cache entry, once present, is never replaced: `emplace` is
a no-op on a present key (the first resolved address wins), any later
`invoke` preserves the entry unchanged, and entries only disappear through
the bulk clear performed by `unload` or `reload`. -/
theorem C10_first_address_wins (sys : Sys) (lib : dynamic_library)
    (n n2 path : String) (a v : Nat) (args : List Nat) (e e2 : ErrSt)
    (c : Cache) :
    (cacheFind c n = some a → cacheEmplace c n v = c)
    ∧ (cacheFind lib.cache_ n = some a →
        cacheFind ((lib.invoke sys n2 args e).lib.cache_) n = some a)
    ∧ (lib.unload).1.cache_ = []
    ∧ (lib.reload sys path e2).2.1.cache_ = [] := by
  refine ⟨fun h => cacheEmplace_noop v h,
          fun h => invoke_preserves_entry sys lib n2 args e h, ?_, ?_⟩
  · rw [unload_state]
  · unfold dynamic_library.reload
    simp only [unload_state]
    unfold dynamic_library.load_handle load_library get_last_error
    by_cases h : sys.libs path = 0 <;> simp [h]

/-- Claim C10, instantiated: `emplace` of a new address under an already
cached name does not change the cache. -/
theorem C10_witness :
    cacheEmplace [("intAdd", 42)] "intAdd" 99 = [("intAdd", 42)] :=
  (C10_first_address_wins sysW libWc "intAdd" "intAdd" "libdyn.so" 42 99 []
    none none [("intAdd", 42)]).1 (by decide)

/-- Claim C4, instantiated: a successful construction on `sysW` starts with
an empty cache. -/
theorem C4_witness : (construct sysW "libdyn.so" none).2.1.cache_ = [] :=
  (C4_construct sysW "libdyn.so" none).2

/-- Claim C5, instantiated: a second `unload` after a first one changes
nothing and releases nothing. -/
theorem C5_witness : ((libWc.unload).1.unload) = ((libWc.unload).1, []) :=
  (C5_unload libWc).2.2.2

/-- Claim C6, instantiated: `get` on an unloaded `sysW` handle raises the
SymbolError built from the platform diagnostic. -/
theorem C6_witness :
    ((libWc.unload).1.get sysW "intAdd" none).1 =
      .error (.symbolError "intAdd" (sysW.symErr 0 "intAdd")) :=
  (C6_unloaded_raises sysW libWc "intAdd" [] none none).2.1

/-- Claim C7, instantiated: `reload` on `sysW` leaves the same state as a
fresh construction. -/
theorem C7_witness :
    (libWc.reload sysW "libdyn.so" none).2.1 =
      (construct sysW "libdyn.so" none).2.1 :=
  (C7_reload sysW libWc "libdyn.so" none).2.1

/-- Claim C8, instantiated: after move assignment the destination holds
exactly what the source held. -/
theorem C8_witness : (moveAssign libW libWc).1 = libWc :=
  (C8_move libWc libW libWc).2.2.2.1

/-- Claim C9, instantiated: `has_symbol` on `sysW` answers presence of
`"intAdd"` exactly as resolution does. -/
theorem C9_witness :
    (libW.has_symbol sysW "intAdd" none).1 = true ↔
      resolve_raw sysW libW.handle_ "intAdd" ≠ 0 :=
  (C9_has_symbol sysW libW "intAdd" "other" none none).1

end dll
